import Mathlib

/-!
Verification development for the client-side list-synchronization scripts of
the powerka repository (verification list, appeals list, order-create form).

JavaScript values, DOM state and network effects are shallowly embedded:
  * a JS value that may be a string, a number, `null` or `undefined` is the
    inductive `JSVal`;
  * `URLSearchParams` / plain-object maps are association lists
    `List (String × _)` with the exact `set` semantics of each API;
  * side effects (history updates, fetches, alerts) are Effect traces;
  * every fallible network interaction is a parameter describing the
    response, so each branch of the handlers can be analysed.
-/

/-- JS value as it can appear in a filter mapping: string, number, null or
undefined. -/
inductive JSVal where
  | str (s : String)
  | num (n : Nat)
  | null
  | undef
deriving DecidableEq, Repr

/-- JS `String(v)` conversion for the values above. -/
def jsValToString : JSVal → String
  | .str s => s
  | .num n => Nat.repr n
  | .null => "null"
  | .undef => "undefined"

/-- First value bound to key `k`, mirroring `URLSearchParams.get` /
JS-object property lookup on an association list. -/
def assocGet {α : Type} (obj : List (String × α)) (k : String) : Option α :=
  (obj.find? (fun p => p.1 = k)).map Prod.snd

/-- JS object property assignment `obj[k] = v`: replaces the value in place
when the key exists, otherwise appends the new binding. -/
def assocSet {α : Type} (obj : List (String × α)) (k : String) (v : α) :
    List (String × α) :=
  if obj.any (fun p => p.1 = k) then
    obj.map (fun p => if p.1 = k then (k, v) else p)
  else obj ++ [(k, v)]

/-- WHATWG `URLSearchParams.set`: overwrite the first binding of `k` in
place, drop any later duplicates, or append when `k` is absent. -/
def searchParamsSet : List (String × String) → String → String →
    List (String × String)
  | [], k, v => [(k, v)]
  | p :: ps, k, v =>
    if p.1 = k then (k, v) :: ps.filter (fun q => q.1 ≠ k)
    else p :: searchParamsSet ps k v

/-- Embedding of `getCompanyId` (part_000 lines 25-29): the URL query's own
`company_id` wins (even when it is the empty string), else the page-global
`window.company_id`, else the empty string. -/
def getCompanyId (urlParams : List (String × String))
    (windowCompanyId : Option String) : String :=
  match assocGet urlParams "company_id" with
  | some v => v
  | none => windowCompanyId.getD ""

/-- JS `String.prototype.trim`: strip leading and trailing whitespace.
Defined over the character list so it is kernel-executable. -/
def jsTrim (s : String) : String :=
  String.mk
    (((s.toList.dropWhile Char.isWhitespace).reverse.dropWhile
        Char.isWhitespace).reverse)

/-- Condition under which `buildQuery` keeps an entry:
`v !== undefined && v !== null && String(v).trim() !== ''`. -/
def keepParam : JSVal → Bool
  | .undef => false
  | .null => false
  | v => jsTrim (jsValToString v) ≠ ""

/-- One step of the `Object.entries(paramsObj).forEach` loop in
`buildQuery`. -/
def buildStep (acc : List (String × String)) (p : String × JSVal) :
    List (String × String) :=
  if keepParam p.2 then searchParamsSet acc p.1 (jsValToString p.2) else acc

/-- Embedding of `buildQuery` (part_000 lines 79-91).  The produced query
string is modelled as its ordered key/value pairs (percent-encoding is not
modelled).  `params.set('company_id', companyId)` runs only when the
resolved id is truthy, i.e. a non-empty string. -/
def buildQuery (urlParams : List (String × String))
    (windowCompanyId : Option String)
    (paramsObj : List (String × JSVal)) : List (String × String) :=
  let companyId := getCompanyId urlParams windowCompanyId
  let init : List (String × String) :=
    if companyId = "" then [] else [("company_id", companyId)]
  paramsObj.foldl buildStep init

theorem searchParamsSet_append (ps : List (String × String)) (k v : String)
    (h : ∀ p ∈ ps, p.1 ≠ k) : searchParamsSet ps k v = ps ++ [(k, v)] := by
  induction ps with
  | nil => rfl
  | cons p ps ih =>
    rw [searchParamsSet, if_neg (h p (List.mem_cons_self p ps))]
    rw [ih (fun q hq => h q (List.mem_cons_of_mem p hq))]
    simp

theorem buildQuery_foldl (input : List (String × JSVal)) :
    ∀ acc : List (String × String),
      (input.map Prod.fst).Nodup →
      (∀ p ∈ input, ∀ q ∈ acc, q.1 ≠ p.1) →
      input.foldl buildStep acc
        = acc ++ (input.filter (fun p => keepParam p.2)).map
            (fun p => (p.1, jsValToString p.2)) := by
  induction input with
  | nil => simp
  | cons p input ih =>
    intro acc hnd hdisj
    have hcons : (p.1 :: input.map Prod.fst).Nodup := by simpa using hnd
    have hp_not : p.1 ∉ input.map Prod.fst := (List.nodup_cons.mp hcons).1
    have hnd' : (input.map Prod.fst).Nodup := (List.nodup_cons.mp hcons).2
    by_cases hk : keepParam p.2
    · have hstep : buildStep acc p = acc ++ [(p.1, jsValToString p.2)] := by
        rw [buildStep, if_pos hk]
        exact searchParamsSet_append acc p.1 _
          (fun q hq => hdisj p (List.mem_cons_self p input) q hq)
      rw [List.foldl_cons, hstep,
        ih (acc ++ [(p.1, jsValToString p.2)]) hnd' ?_]
      · simp [hk]
      · intro r hr q hq
        rcases List.mem_append.mp hq with h1 | h2
        · exact hdisj r (List.mem_cons_of_mem p hr) q h1
        · have hq' : q = (p.1, jsValToString p.2) := by simpa using h2
          subst hq'
          intro hcontra
          exact hp_not (by
            rw [show p.1 = r.1 from hcontra]
            exact List.mem_map_of_mem Prod.fst hr)
    · rw [List.foldl_cons]
      have hstep : buildStep acc p = acc := by rw [buildStep, if_neg hk]
      rw [hstep, ih acc hnd'
        (fun r hr q hq => hdisj r (List.mem_cons_of_mem p hr) q hq)]
      simp [hk]

/-- C2: buildQuery returns exactly the resolved company_id parameter —
taken from the URL query first, else from the page-global default, and
omitted entirely when the resolution yields the empty string — followed by
every input entry whose value is neither null nor undefined and is
non-empty after trimming; null, undefined and trim-empty entries are
dropped.  The input is a JS object, so its keys are distinct, and the
company_id key is handled separately from the input mapping. -/
theorem claim2_buildQuery_exact (urlParams : List (String × String))
    (w : Option String) (input : List (String × JSVal))
    (hnd : (input.map Prod.fst).Nodup)
    (hnc : "company_id" ∉ input.map Prod.fst) :
    buildQuery urlParams w input =
      (if getCompanyId urlParams w = "" then []
       else [("company_id", getCompanyId urlParams w)])
      ++ (input.filter (fun p => keepParam p.2)).map
          (fun p => (p.1, jsValToString p.2)) := by
  rw [buildQuery]
  refine buildQuery_foldl input _ hnd ?_
  intro p hp q hq
  have hq1 : q.1 = "company_id" := by
    by_cases hc : getCompanyId urlParams w = ""
    · rw [if_pos hc] at hq; simp at hq
    · rw [if_neg hc] at hq
      have : q = ("company_id", getCompanyId urlParams w) := by simpa using hq
      rw [this]
  rw [hq1]
  intro hcontra
  exact hnc (by rw [hcontra]; exact List.mem_map_of_mem Prod.fst hp)

/-- Witness for C2: a concrete input containing an empty-string, a null, an
undefined and a whitespace-only value; only the non-empty entry survives,
after the company_id taken from the URL. -/
theorem claim2_buildQuery_exact_witness :
    ((([("a", JSVal.str "x"), ("b", JSVal.str ""), ("c", JSVal.null),
        ("d", JSVal.undef), ("e", JSVal.str "  ")] :
          List (String × JSVal)).map Prod.fst).Nodup ∧
      "company_id" ∉ ([("a", JSVal.str "x"), ("b", JSVal.str ""),
        ("c", JSVal.null), ("d", JSVal.undef), ("e", JSVal.str "  ")] :
          List (String × JSVal)).map Prod.fst) ∧
    buildQuery [("company_id", "7")] none
        [("a", JSVal.str "x"), ("b", JSVal.str ""), ("c", JSVal.null),
         ("d", JSVal.undef), ("e", JSVal.str "  ")]
      = [("company_id", "7"), ("a", "x")] := by
  refine ⟨⟨by decide, by decide⟩, ?_⟩
  rw [claim2_buildQuery_exact [("company_id", "7")] none _ (by decide)
    (by decide)]
  decide

/-- Recognized URL filter keys of the verification list
(`getCurrentFiltersFromURL`, part_000 lines 43-47). -/
def knownKeys : List String :=
  ["date_from", "date_to", "client_address", "factory_number",
   "series_id", "employee_id", "client_phone", "city_id",
   "water_type", "act_number", "limit", "page"]

/-- Embedding of `getCurrentFiltersFromURL` (part_000 lines 41-53): keeps,
in `knownKeys` order, each known key present in the URL with a non-empty
value. -/
def getCurrentFiltersFromURL (urlParams : List (String × String)) :
    List (String × String) :=
  knownKeys.foldl (fun acc k =>
    match assocGet urlParams k with
    | some v => if v = "" then acc else acc ++ [(k, v)]
    | none => acc) []

/-- Embedding of `getCurrentFiltersFromForm` (part_000 lines 31-39): keeps
every non-empty form entry, building a JS object (later duplicates
overwrite in place). -/
def getCurrentFiltersFromForm (formEntries : List (String × String)) :
    List (String × String) :=
  formEntries.foldl (fun acc p =>
    if p.2 = "" then acc else assocSet acc p.1 p.2) []

/-- JS object spread `\x7b...a, ...b\x7d`: entries of `b` merged over `a`,
later values overwriting in place. -/
def mergeObj (a b : List (String × JSVal)) : List (String × JSVal) :=
  b.foldl (fun acc p => assocSet acc p.1 p.2) a

/-- Resolution of the page-size in `loadVerificationEntries` (line 553):
`(limitEl && limitEl.value) || urlFilters.limit || '30'`.  The first
argument is the limit control's value (`none` when the element is absent);
an empty value falls through to the URL filter, then to the default 30. -/
def resolvedLimit (limitEl : Option String)
    (urlFilters : List (String × String)) : String :=
  let fallback := (assocGet urlFilters "limit").getD "30"
  match limitEl with
  | some v => if v = "" then fallback else v
  | none => fallback

/-- Merged request object built by `loadVerificationEntries`
(part_000 lines 549-566): URL filters, overridden by form filters, then
the page argument and the resolved limit, with empty/null/undefined
values deleted afterwards. -/
def mergedRequest (urlParams formEntries : List (String × String))
    (limitEl : Option String) (page : Nat) : List (String × JSVal) :=
  let urlFilters := getCurrentFiltersFromURL urlParams
  let formFilters := getCurrentFiltersFromForm formEntries
  let limit := resolvedLimit limitEl urlFilters
  let obj := mergeObj (urlFilters.map (fun p => (p.1, JSVal.str p.2)))
      (formFilters.map (fun p => (p.1, JSVal.str p.2)))
  let obj := assocSet obj "page" (JSVal.num page)
  let obj := assocSet obj "limit" (JSVal.str limit)
  obj.filter (fun p =>
    ¬(p.2 = JSVal.str "" ∨ p.2 = JSVal.null ∨ p.2 = JSVal.undef))

/-- Observable side effects of the handlers: history updates (with the
query pairs written to the address bar), list GET requests, alerts (the
transient `showAlert` banner and the blocking `window.alert`), the appeals
fetch, delete requests, modal hiding, the appeals table clearing and the
full list re-fetch performed by the appeals delete flow. -/
inductive Effect where
  | replaceState (query : List (String × String))
  | pushState (query : List (String × String))
  | fetchList (query : List (String × String))
  | fetchAppeals (page : Int) (statusFilter : Option String)
  | showAlert (msg kind : String)
  | jsAlert (msg : String)
  | deleteReq
  | modalHide
  | refetchList
  | clearTable
deriving DecidableEq, Repr

/-- Whether an effect issues a list (re-)load. -/
def Effect.isListFetch : Effect → Bool
  | .fetchList _ => true
  | .fetchAppeals _ _ => true
  | .refetchList => true
  | _ => false

/-- One rendered pagination element: a page link (`page-item` holding an
anchor with a `data-page` number) or the `...` ellipsis placeholder, which
carries no anchor.  `isNumber` distinguishes the numbered links of the
window from the icon-labelled first/prev/next/last links. -/
inductive PagItem where
  | link (page : Int) (isNumber active disabled : Bool)
  | ellipsis
deriving DecidableEq, Repr

/-- Windowed page-number loop of the verification `renderPagination`
(part_000 lines 423-430): every page that is the first, the last, or
within ±2 of the current page becomes a numbered link; the pages exactly
3 away become ellipsis placeholders; all others render nothing. -/
def paginationWindow (currentPage totalPages : Nat) : List PagItem :=
  (List.range totalPages).foldl (fun acc i =>
    let p := i + 1
    if p = 1 ∨ p = totalPages ∨
        ((currentPage : Int) - 2 ≤ (p : Int) ∧
          (p : Int) ≤ (currentPage : Int) + 2) then
      acc ++ [PagItem.link p true (p = currentPage) false]
    else if (p : Int) = (currentPage : Int) - 3 ∨
        (p : Int) = (currentPage : Int) + 3 then
      acc ++ [PagItem.ellipsis]
    else acc) []

/-- Embedding of the verification list `renderPagination`
(part_000 lines 394-450).  With `totalPages ≤ 1` (the JS guard is
`!totalPages || totalPages <= 1`) the container is emptied and nothing is
rendered; otherwise first/prev links (disabled on page 1, prev clamped to
1), the window, and next/last links (disabled on the last page, next
clamped to `totalPages`). -/
def renderPagination (currentPage totalPages : Nat) : List PagItem :=
  if totalPages ≤ 1 then [] else
    [PagItem.link 1 false false (currentPage = 1),
     PagItem.link (max 1 ((currentPage : Int) - 1)) false false
       (currentPage = 1)]
    ++ paginationWindow currentPage totalPages
    ++ [PagItem.link (min (totalPages : Int) ((currentPage : Int) + 1))
          false false (currentPage = totalPages),
        PagItem.link totalPages false false (currentPage = totalPages)]

/-- Click handler wired by the verification `renderPagination`
(part_000 lines 441-449): every anchor carrying a `data-page` — including
those inside `disabled` page items — calls `loadVerificationEntries` with
that number; the ellipsis is a span without an anchor, so clicking it does
nothing.  Returns the page passed to the list fetcher, or `none` for a
no-op. -/
def verifPagClick : PagItem → Option Int
  | .link page _ _ _ => some page
  | .ellipsis => none

/-- Embedding of the appeals `renderPagination` + `makeLi`
(appeals_script.js lines 19-57): no empty-guard — first/prev (disabled when
`currentPage <= 1`), a numbered window with ellipses at distance 3, and
next/last (disabled when `currentPage >= total_pages`) are always
appended. -/
def appealsRenderPagination (currentPage : Int) (total_pages : Nat) :
    List PagItem :=
  [PagItem.link 1 false false (currentPage ≤ 1),
   PagItem.link (currentPage - 1) false false (currentPage ≤ 1)]
  ++ (List.range total_pages).foldl (fun acc i =>
      let p := i + 1
      if p = 1 ∨ p = total_pages ∨ ((p : Int) - currentPage).natAbs ≤ 2 then
        acc ++ [PagItem.link p true ((p : Int) = currentPage) false]
      else if ((p : Int) - currentPage).natAbs = 3 then
        acc ++ [PagItem.ellipsis]
      else acc) []
  ++ [PagItem.link (currentPage + 1) false false
        (currentPage ≥ total_pages),
      PagItem.link total_pages false false (currentPage ≥ total_pages)]

/-- Click handler installed by the appeals `makeLi` (appeals_script.js
lines 27-34): the load runs only when the item is not disabled and its
page differs from the module-level `currentPage` at click time. -/
def appealsPagClick (currentPage : Int) : PagItem → Option Int
  | .link page _ _ disabled =>
      if disabled then none
      else if page = currentPage then none
      else some page
  | .ellipsis => none

/-- Verification record fields the embedded renderer derives row state
from; the purely presentational cells (names, dates, addresses and the
HTML markup) are elided, the delete handler's inputs are kept. -/
structure VerifItem where
  id : Nat
  verification_result : Bool
deriving DecidableEq, Repr

/-- Row state produced per record: the `data-row-id` and the text of the
result badge cell (the first `td.text-white.bg-success/bg-danger` cell of
the row, which the delete handler reads back). -/
structure RenderedRow where
  rowId : Nat
  resultText : String
deriving DecidableEq, Repr

/-- Row derivation of `renderVerificationTable` (part_000 lines 279-281):
`resultOk = !!e.verification_result` picks the badge text. -/
def renderRowV (e : VerifItem) : RenderedRow :=
  { rowId := e.id,
    resultText := if e.verification_result then "Пригодно" else "Непригодно" }

/-- One row of the verification table body: a data row or the
`Записи отсутствуют` placeholder row (a single cell with colspan 20). -/
inductive TRow where
  | placeholder
  | data (r : RenderedRow)
deriving DecidableEq, Repr

/-- Embedding of `renderVerificationTable` (part_000 lines 255-392): empty
input replaces the body with the single placeholder row; otherwise the body
becomes exactly one data row per record. -/
def renderVerificationTable (items : List VerifItem) : List TRow :=
  if items.length = 0 then [TRow.placeholder]
  else items.map (fun e => TRow.data (renderRowV e))

/-- Appeal record fields used by the appeals row renderer; presentational
fields are elided. -/
structure Appeal where
  id : Nat
  status : String
deriving DecidableEq, Repr

/-- One row of the appeals table body: a data row appended by `renderRow`,
or the error row written on a failed load (a single cell spanning the
table). -/
inductive ARow where
  | data (a : Appeal)
  | errorRow (msg : String)
deriving DecidableEq, Repr

/-- Envelope consumed by the appeals list: `\x7bitems, total_pages\x7d`. -/
structure AppealsEnvelope where
  items : List Appeal
  total_pages : Nat
deriving Repr

/-- Embedding of the appeals `loadAppeals` (appeals_script.js lines
94-114): the table body is cleared first (`tbody.innerHTML = ''`), then
`fetchAppeals` runs with the module page, the fixed page size 30, and
`statusFilter.value || null`; on success one row per item is appended and
the pagination is re-rendered; when the fetch throws, the body becomes a
single error row and the pagination is left as it was.  Returns the new
table body, the new pagination and the effect trace. -/
def loadAppeals (prevTbody : List ARow) (prevPag : List PagItem)
    (currentPage : Int) (statusFilter : String)
    (resp : Except String AppealsEnvelope) :
    List ARow × List PagItem × List Effect :=
  let cleared : List ARow := []
  let fetchEff := Effect.fetchAppeals currentPage
      (if statusFilter = "" then none else some statusFilter)
  match resp with
  | .ok env =>
      (cleared ++ env.items.map ARow.data,
       appealsRenderPagination currentPage env.total_pages,
       [Effect.clearTable, fetchEff])
  | .error msg =>
      ([ARow.errorRow msg], prevPag, [Effect.clearTable, fetchEff])

/-- Aggregate counters shown above the verification list
(total / verified / not-verified entries). -/
structure Counters where
  total : Nat
  verified : Nat
  notVerified : Nat
deriving DecidableEq, Repr

/-- DOM state of the verification list view: table body, counters and
pagination block. -/
structure ViewState where
  tbody : List TRow
  stats : Counters
  pagination : List PagItem
deriving Repr

/-- Paginated envelope of the verification list endpoint; every field is
optional because `loadVerificationEntries` destructures it with
defaults. -/
structure Envelope where
  items : Option (List VerifItem)
  page : Option Nat
  total_pages : Option Nat
  total_entries : Option Nat
  verified_entry : Option Nat
  not_verified_entry : Option Nat
deriving Repr

/-- Result of the awaited `safeFetch` + `res.json()` pair: an HTTP error
(non-2xx status), a network-level failure, a 2xx body that fails to parse,
or a parsed JSON value (`none` models a JSON `null` body, handled by
`data || \x7b\x7d`). -/
inductive FetchOutcome where
  | httpError (status : Nat) (statusText : String)
  | networkError
  | parseFail
  | parsed (d : Option Envelope)

/-- Embedding of `loadVerificationEntries` (part_000 lines 548-597).  The
merged request is pushed through `pushURLState` (a `history.replaceState`,
part_000 lines 181-186) before the GET is issued; `safeFetch` failures
surface a `showAlert` and leave the whole view state untouched; a JSON
parse failure surfaces a blocking alert and also aborts; on success the
three renderers run on the destructured envelope. -/
def loadVerificationEntries (urlParams : List (String × String))
    (windowCompanyId : Option String)
    (formEntries : List (String × String)) (limitEl : Option String)
    (page : Nat) (st : ViewState) (resp : FetchOutcome) :
    ViewState × List Effect :=
  let paramsObj := mergedRequest urlParams formEntries limitEl page
  let q := buildQuery urlParams windowCompanyId paramsObj
  match resp with
  | .httpError status statusText =>
      (st, Effect.replaceState q :: Effect.fetchList q ::
        [Effect.showAlert
          ("Ошибка при загрузке записей поверки: " ++ Nat.repr status
            ++ " " ++ statusText) "danger"])
  | .networkError =>
      (st, Effect.replaceState q :: Effect.fetchList q ::
        [Effect.showAlert "Ошибка сети при загрузке записей поверки"
          "danger"])
  | .parseFail =>
      (st, Effect.replaceState q :: Effect.fetchList q ::
        [Effect.jsAlert "Ошибка обработки ответа сервера"])
  | .parsed d =>
      let e := d.getD ⟨none, none, none, none, none, none⟩
      let items := e.items.getD []
      let curPage := e.page.getD page
      let totalPages := e.total_pages.getD 1
      ({ tbody := renderVerificationTable items,
         stats := ⟨e.total_entries.getD 0, e.verified_entry.getD 0,
           e.not_verified_entry.getD 0⟩,
         pagination := renderPagination curPage totalPages },
       Effect.replaceState q :: Effect.fetchList q :: [])

/-- C1 counterexample: the appeals list does not keep the previously
rendered rows on a failed refresh.  `loadAppeals` clears the table body
before the fetch, and when the fetch fails the body holds a single error
row instead of the previous rows, so the claimed invariant is false for
the appeals list at this concrete input. -/
theorem claim1_appeals_failed_load_cex :
    (loadAppeals [ARow.data ⟨1, "new"⟩] [] 1 ""
        (Except.error "Ошибка сети")).1
      ≠ [ARow.data ⟨1, "new"⟩] := by
  decide

/-- C1 (amended): on the verification list a failed load (non-2xx status
or network failure) surfaces a `showAlert` notification and leaves the
table body, counters and pagination untouched; the appeals list instead
clears its table body at the start of every load and, on a failed fetch,
displays a single error row in place of the previous rows. -/
theorem claim1_failed_load_behaviour (urlParams : List (String × String))
    (w : Option String) (formEntries : List (String × String))
    (limitEl : Option String) (page : Nat) (st : ViewState)
    (status : Nat) (statusText : String)
    (prevTbody : List ARow) (prevPag : List PagItem) (cp : Int)
    (sf msg : String) :
    (loadVerificationEntries urlParams w formEntries limitEl page st
        (.httpError status statusText)).1 = st ∧
    Effect.showAlert
        ("Ошибка при загрузке записей поверки: " ++ Nat.repr status
          ++ " " ++ statusText) "danger"
      ∈ (loadVerificationEntries urlParams w formEntries limitEl page st
          (.httpError status statusText)).2 ∧
    (loadVerificationEntries urlParams w formEntries limitEl page st
        .networkError).1 = st ∧
    Effect.showAlert "Ошибка сети при загрузке записей поверки" "danger"
      ∈ (loadVerificationEntries urlParams w formEntries limitEl page st
          .networkError).2 ∧
    (loadAppeals prevTbody prevPag cp sf (Except.error msg)).1
      = [ARow.errorRow msg] := by
  refine ⟨rfl, ?_, rfl, ?_, rfl⟩
  · simp [loadVerificationEntries]
  · simp [loadVerificationEntries]

/-- C3: every invocation of `loadVerificationEntries` first writes the
query of the merged request (URL filters overridden by form filters, then
the page argument, then the resolved limit, empty values stripped) to the
address bar via `history.replaceState`, then issues the GET with that same
query — whatever the response later does — and never calls
`history.pushState`. -/
theorem claim3_replaceState_before_fetch (urlParams : List (String × String))
    (w : Option String) (formEntries : List (String × String))
    (limitEl : Option String) (page : Nat) (st : ViewState)
    (resp : FetchOutcome) :
    ((loadVerificationEntries urlParams w formEntries limitEl page st
        resp).2).take 2
      = [Effect.replaceState (buildQuery urlParams w
          (mergedRequest urlParams formEntries limitEl page)),
         Effect.fetchList (buildQuery urlParams w
          (mergedRequest urlParams formEntries limitEl page))] ∧
    ∀ q', Effect.pushState q'
      ∉ (loadVerificationEntries urlParams w formEntries limitEl page st
          resp).2 := by
  cases resp <;> exact ⟨rfl, by simp [loadVerificationEntries]⟩

/-- C4 counterexample: the appeals pagination renderer has no
`totalPages ≤ 1` guard; with `currentPage = 1` and `total_pages = 1` it
still renders five page-link items (first, prev, the single numbered page,
next, last), so the claim is false for the appeals list. -/
theorem claim4_appeals_renders_on_single_page_cex :
    (appealsRenderPagination 1 1).length = 5 := by decide

/-- C4 (amended): the verification list renderer produces no items when
`totalPages` is 0 or 1; the appeals renderer, which has no such guard,
still renders its four navigation links plus one numbered link when
`total_pages = 1` (and the four navigation links when `total_pages = 0`),
whatever the current page. -/
theorem claim4_pagination_empty_guard (cp tp : Nat) (cpa : Int)
    (htp : tp ≤ 1) :
    renderPagination cp tp = [] ∧
    (appealsRenderPagination cpa 1).length = 5 ∧
    (appealsRenderPagination cpa 0).length = 4 := by
  refine ⟨by rw [renderPagination, if_pos htp], ?_, ?_⟩
  · simp [appealsRenderPagination, List.range_succ, List.range_zero,
      List.foldl_cons, List.foldl_nil]
  · simp [appealsRenderPagination]

/-- Witness for C4 at `totalPages = 1`. -/
theorem claim4_pagination_empty_guard_witness :
    (1 : Nat) ≤ 1 ∧
    (renderPagination 5 1 = [] ∧
      (appealsRenderPagination 2 1).length = 5 ∧
      (appealsRenderPagination 2 0).length = 4) :=
  ⟨by decide, claim4_pagination_empty_guard 5 1 2 (by decide)⟩

/-- C5: the verification renderer at `currentPage = 5`, `totalPages = 10`
(window radius 2 in the code) produces, between the first/prev and
next/last navigation links, exactly the numbered links 1, 3, 4, 5, 6, 7,
10 — 5 marked active — with one ellipsis between 1 and 3 and one between
7 and 10; the numbered pages are exactly [1, 3, 4, 5, 6, 7, 10]. -/
theorem claim5_window_5_of_10 :
    renderPagination 5 10
      = [PagItem.link 1 false false false,
         PagItem.link 4 false false false,
         PagItem.link 1 true false false,
         PagItem.ellipsis,
         PagItem.link 3 true false false,
         PagItem.link 4 true false false,
         PagItem.link 5 true true false,
         PagItem.link 6 true false false,
         PagItem.link 7 true false false,
         PagItem.ellipsis,
         PagItem.link 10 true false false,
         PagItem.link 6 false false false,
         PagItem.link 10 false false false] ∧
    (renderPagination 5 10).filterMap
        (fun it => match it with
          | PagItem.link p true _ _ => some p
          | _ => none)
      = [1, 3, 4, 5, 6, 7, 10] := by
  refine ⟨by decide, by decide⟩

/-- C6 counterexample: in the verification list the first-page link at
`currentPage = 1, totalPages = 3` is rendered disabled, yet its click
handler still calls the list fetcher with page 1 — the code attaches the
same `data-page` handler to every anchor and never checks the `disabled`
class — so a disabled link's click is not a no-op, falsifying the claim. -/
theorem claim6_disabled_click_cex :
    (renderPagination 1 3).head? = some (PagItem.link 1 false false true) ∧
    verifPagClick (PagItem.link 1 false false true) = some 1 := by
  refine ⟨by decide, rfl⟩

/-- C6 (amended): in the appeals list a disabled link's click is a no-op,
an enabled link whose page differs from the current page triggers the
fetch with exactly that page, and clicking the current page's (enabled)
numbered link is also a no-op; in the verification list every pagination
link — disabled ones included — triggers the list fetcher with its
`data-page` number, the only no-op element being the anchor-less ellipsis;
disabled verification links are non-interactive only through CSS, not
through this code. -/
theorem claim6_click_handlers (cur p : Int) (n a d : Bool)
    (hp : p ≠ cur) :
    appealsPagClick cur (PagItem.link p n a true) = none ∧
    appealsPagClick cur (PagItem.link p n a false) = some p ∧
    appealsPagClick cur (PagItem.link cur n a false) = none ∧
    appealsPagClick cur PagItem.ellipsis = none ∧
    verifPagClick (PagItem.link p n a d) = some p ∧
    verifPagClick PagItem.ellipsis = none := by
  refine ⟨rfl, ?_, ?_, rfl, rfl, rfl⟩
  · simp [appealsPagClick, hp]
  · simp [appealsPagClick]

/-- Witness for C6 at page 3 of a control whose current page is 1. -/
theorem claim6_click_handlers_witness :
    (3 : Int) ≠ 1 ∧
    (appealsPagClick 1 (PagItem.link 3 true false true) = none ∧
      appealsPagClick 1 (PagItem.link 3 true false false) = some 3 ∧
      appealsPagClick 1 (PagItem.link 1 true false false) = none ∧
      appealsPagClick 1 PagItem.ellipsis = none ∧
      verifPagClick (PagItem.link 3 true false true) = some 3 ∧
      verifPagClick PagItem.ellipsis = none) :=
  ⟨by decide, claim6_click_handlers 1 3 true false true (by decide)⟩

/-- C7 counterexample: a successful appeals load whose envelope carries an
empty items array leaves the (previously cleared) table body with zero
rows — no placeholder row is rendered — so the claim is false for the
appeals list. -/
theorem claim7_appeals_empty_items_cex :
    (loadAppeals [ARow.data ⟨1, "new"⟩] [] 1 ""
        (Except.ok ⟨[], 1⟩)).1 = ([] : List ARow) := by
  rfl

/-- C7 (amended): the verification table renderer maps an empty items
sequence to exactly one placeholder row; the appeals list, by contrast,
renders zero rows for an empty items sequence. -/
theorem claim7_empty_items_rendering (prevTbody : List ARow)
    (prevPag : List PagItem) (cp : Int) (sf : String) (tp : Nat) :
    renderVerificationTable [] = [TRow.placeholder] ∧
    (renderVerificationTable []).length = 1 ∧
    (loadAppeals prevTbody prevPag cp sf (Except.ok ⟨[], tp⟩)).1
      = ([] : List ARow) := by
  exact ⟨rfl, rfl, rfl⟩

/-- Server response of the verification-entry DELETE request as seen by
`onDeleteVerification`: `safeFetch` returned null (HTTP or network error,
alert already shown with the given message), a JSON body carrying an
`error` field, or a success (any other body, including unparsable ones). -/
inductive VerifDeleteResp where
  | fetchFail (alertMsg : String)
  | errorBody (msg : String)
  | success

/-- Embedding of `onDeleteVerification` (part_000 lines 452-502).  The
confirm dialog runs before any request; a failed fetch or an
`\x7berror\x7d` body leaves everything untouched; on success the clicked
row (position `i`) fades out and is removed, the total counter is
decremented only when positive, and — depending on the removed row's
result badge text — exactly one of the verified/not-verified counters is
decremented, also only when positive.  No list request is issued at any
point.  Returns the table rows, the counters and the effect trace. -/
def onDeleteVerification (rows : List RenderedRow) (i : Fin rows.length)
    (c : Counters) (confirmed : Bool) (resp : VerifDeleteResp) :
    List RenderedRow × Counters × List Effect :=
  if confirmed = false then (rows, c, [])
  else
    match resp with
    | .fetchFail m =>
        (rows, c, [Effect.deleteReq, Effect.showAlert m "danger"])
    | .errorBody m =>
        (rows, c, [Effect.deleteReq, Effect.jsAlert ("Ошибка: " ++ m)])
    | .success =>
        let row := rows.get i
        let total := if c.total > 0 then c.total - 1 else c.total
        let verified :=
          if row.resultText = "Пригодно" then
            if c.verified > 0 then c.verified - 1 else c.verified
          else c.verified
        let notVerified :=
          if row.resultText = "Пригодно" then c.notVerified
          else if row.resultText = "Непригодно" then
            if c.notVerified > 0 then c.notVerified - 1 else c.notVerified
          else c.notVerified
        (rows.eraseIdx i.1, ⟨total, verified, notVerified⟩,
         [Effect.deleteReq,
          Effect.jsAlert "Запись поверки успешно удалена"])

/-- Embedding of the appeals `openDeleteModal` confirm-button handler
(part_001 lines 3-19): `deleteAppeal` is awaited; on success the modal is
hidden and `window.loadAppeals()` re-fetches the whole current page; a
thrown error is alerted and nothing else happens. -/
def appealsConfirmDelete (resp : Except String Unit) : List Effect :=
  match resp with
  | .ok _ => [Effect.deleteReq, Effect.modalHide, Effect.refetchList]
  | .error m =>
      [Effect.deleteReq, Effect.jsAlert ("Ошибка удаления: " ++ m)]

/-- C8 counterexample: after a successful appeal deletion the confirm
handler triggers `window.loadAppeals()` — a full re-fetch of the current
page — so the claim that no row-level delete ever re-fetches the list is
false for the appeals list. -/
theorem claim8_appeals_delete_refetches_cex :
    Effect.refetchList ∈ appealsConfirmDelete (Except.ok ()) := by
  decide

/-- C8 (amended): a confirmed, server-successful verification-entry delete
removes exactly the clicked row, decrements the total counter by one only
when it is positive (never below zero), decrements exactly the one
category counter matching the removed row's badge text under the same
floor, and issues no list fetch; the appeals delete, by contrast,
re-fetches the whole current page via `loadAppeals` after a successful
delete. -/
theorem claim8_delete_row_local (rows : List RenderedRow)
    (i : Fin rows.length) (c : Counters) :
    (onDeleteVerification rows i c true .success).1
      = rows.eraseIdx i.1 ∧
    (0 < c.total →
      (onDeleteVerification rows i c true .success).2.1.total
        = c.total - 1) ∧
    (c.total = 0 →
      (onDeleteVerification rows i c true .success).2.1.total = 0) ∧
    ((rows.get i).resultText = "Пригодно" →
      (onDeleteVerification rows i c true .success).2.1.notVerified
          = c.notVerified ∧
        (0 < c.verified →
          (onDeleteVerification rows i c true .success).2.1.verified
            = c.verified - 1) ∧
        (c.verified = 0 →
          (onDeleteVerification rows i c true .success).2.1.verified = 0)) ∧
    ((rows.get i).resultText = "Непригодно" →
      (onDeleteVerification rows i c true .success).2.1.verified
          = c.verified ∧
        (0 < c.notVerified →
          (onDeleteVerification rows i c true .success).2.1.notVerified
            = c.notVerified - 1) ∧
        (c.notVerified = 0 →
          (onDeleteVerification rows i c true .success).2.1.notVerified
            = 0)) ∧
    (∀ e ∈ (onDeleteVerification rows i c true .success).2.2,
      e.isListFetch = false) ∧
    Effect.refetchList ∈ appealsConfirmDelete (Except.ok ()) := by
  refine ⟨rfl, ?_, ?_, ?_, ?_, ?_, by decide⟩
  · intro h
    show (if c.total > 0 then c.total - 1 else c.total) = c.total - 1
    rw [if_pos h]
  · intro h
    show (if c.total > 0 then c.total - 1 else c.total) = 0
    rw [h]
    simp
  · intro h
    refine ⟨?_, ?_, ?_⟩
    · show (if (rows.get i).resultText = "Пригодно" then c.notVerified
          else if (rows.get i).resultText = "Непригодно" then
            if c.notVerified > 0 then c.notVerified - 1 else c.notVerified
          else c.notVerified) = c.notVerified
      rw [if_pos h]
    · intro hv
      show (if (rows.get i).resultText = "Пригодно" then
            if c.verified > 0 then c.verified - 1 else c.verified
          else c.verified) = c.verified - 1
      rw [if_pos h, if_pos hv]
    · intro hv
      show (if (rows.get i).resultText = "Пригодно" then
            if c.verified > 0 then c.verified - 1 else c.verified
          else c.verified) = 0
      rw [if_pos h, hv]
      simp
  · intro h
    have hne : ¬((rows.get i).resultText = "Пригодно") := by
      rw [h]; decide
    refine ⟨?_, ?_, ?_⟩
    · show (if (rows.get i).resultText = "Пригодно" then
            if c.verified > 0 then c.verified - 1 else c.verified
          else c.verified) = c.verified
      rw [if_neg hne]
    · intro hv
      show (if (rows.get i).resultText = "Пригодно" then c.notVerified
          else if (rows.get i).resultText = "Непригодно" then
            if c.notVerified > 0 then c.notVerified - 1 else c.notVerified
          else c.notVerified) = c.notVerified - 1
      rw [if_neg hne, if_pos h, if_pos hv]
    · intro hv
      show (if (rows.get i).resultText = "Пригодно" then c.notVerified
          else if (rows.get i).resultText = "Непригодно" then
            if c.notVerified > 0 then c.notVerified - 1 else c.notVerified
          else c.notVerified) = 0
      rw [if_neg hne, if_pos h, hv]
      simp
  · intro e he
    simp [onDeleteVerification] at he
    rcases he with h | h <;> rw [h] <;> rfl

/-- Witness for C8: deleting the only row (badge `Пригодно`) of a table
with counters (5, 3, 2) leaves an empty table and counters (4, 2, 2). -/
theorem claim8_delete_row_local_witness :
    (onDeleteVerification [⟨1, "Пригодно"⟩] ⟨0, by decide⟩ ⟨5, 3, 2⟩ true
        .success).1 = [] ∧
    (onDeleteVerification [⟨1, "Пригодно"⟩] ⟨0, by decide⟩ ⟨5, 3, 2⟩ true
        .success).2.1.total = 4 ∧
    (onDeleteVerification [⟨1, "Пригодно"⟩] ⟨0, by decide⟩ ⟨5, 3, 2⟩ true
        .success).2.1.verified = 2 ∧
    (onDeleteVerification [⟨1, "Пригодно"⟩] ⟨0, by decide⟩ ⟨5, 3, 2⟩ true
        .success).2.1.notVerified = 2 := by
  have h := claim8_delete_row_local [⟨1, "Пригодно"⟩] ⟨0, by decide⟩
    ⟨5, 3, 2⟩
  obtain ⟨h1, h2, -, h4, -, -, -⟩ := h
  obtain ⟨h4a, h4b, -⟩ := h4 rfl
  exact ⟨h1, h2 (by decide), h4b (by decide), h4a⟩

/-- Digits of a string (JS `value.replace(/\D/g, '')`). -/
def filterDigits (s : String) : String :=
  String.mk (s.toList.filter Char.isDigit)

/-- Strip leading zeros (JS `replace(/^0+/, '')`). -/
def dropLeadingZeros (s : String) : String :=
  String.mk (s.toList.dropWhile (fun c => c = '0'))

/-- Normalized act-number digits: digits of the raw field value with
leading zeros stripped (create.js lines 285 and 521-522). -/
def actNumDigits (v : String) : String :=
  dropLeadingZeros (filterDigits v)

/-- Value of `parseInt` on a pure digit string. -/
def digitsToNat (s : String) : Nat :=
  s.toList.foldl (fun a c => a * 10 + (c.toNat - 48)) 0

/-- PostgreSQL int upper bound used by create.js (line 34). -/
def INT_MAX : Nat := 2147483647

/-- Form fields that `queryActNumber` / `fillFromOrderForActNumber` can
prefill (create.js lines 335-368 and 386-416). -/
structure FormState where
  client_full_name : String
  address : String
  client_phone : String
  verification_date : String
  legal_entity : String
  city_id : String
deriving DecidableEq, Repr

/-- Prefill payload (either the fetched act data or the page-global
`prefillData`); `none` models an absent / null field. -/
structure Prefill where
  client_full_name : Option String
  address : Option String
  client_phone : Option String
  verification_date : Option String
  legal_entity : Option String
  city_id : Option String
deriving DecidableEq, Repr

/-- Field-by-field application of a found act's data to the form
(create.js lines 335-364): `setIf` writes a field when the value is not
null; the phone and verification_date are written only when truthy
(non-empty); the city only when the select has a matching option. -/
def applyPrefill (cityOptions : List String) (f : FormState)
    (p : Prefill) : FormState :=
  let f := match p.client_full_name with
    | some v => { f with client_full_name := v }
    | none => f
  let f := match p.address with
    | some v => { f with address := v }
    | none => f
  let f := match p.client_phone with
    | some v => if v = "" then f else { f with client_phone := v }
    | none => f
  let f := match p.verification_date with
    | some v => if v = "" then f else { f with verification_date := v }
    | none => f
  let f := match p.legal_entity with
    | some v => { f with legal_entity := v }
    | none => f
  match p.city_id with
  | some v => if cityOptions.contains v then { f with city_id := v } else f
  | none => f

/-- Embedding of `fillFromOrderForActNumber` (create.js lines 386-416):
identical field logic, sourced from the page-global `prefillData`; a
missing `prefillData` is a no-op. -/
def fillFromOrderForActNumber (cityOptions : List String)
    (windowPrefill : Option Prefill) (f : FormState) : FormState :=
  match windowPrefill with
  | some p => applyPrefill cityOptions f p
  | none => f

/-- Synchronous prologue of `queryActNumber` (create.js lines 281-310)
before the GET is issued: series must be selected, the normalized digits
must be non-empty, parse to at least 1 and not exceed INT_MAX; only then
is `lastActQueryKey` set to `seriesId:num` and the request started. -/
inductive ActStartResult where
  | noSeries
  | noDigits
  | invalidNum
  | tooBig
  | started (key : String)
deriving DecidableEq, Repr

/-- Validation and key recording of `queryActNumber`. -/
def actStart (seriesId actValue : String) : ActStartResult :=
  if seriesId = "" then ActStartResult.noSeries
  else
    let digits := actNumDigits actValue
    if digits = "" then ActStartResult.noDigits
    else
      let num := digitsToNat digits
      if num < 1 then ActStartResult.invalidNum
      else if num > INT_MAX then ActStartResult.tooBig
      else ActStartResult.started (seriesId ++ ":" ++ Nat.repr num)

/-- Response of the act-number GET as `queryActNumber` discriminates it:
a 2xx body whose JSON has `found !== false` (carrying the prefill), a 2xx
body that is null/not-found, a 404, another HTTP error, or a thrown
network error. -/
inductive ActResp where
  | okFound (p : Prefill)
  | okNotFound
  | status404
  | otherError
  | netThrow
deriving Repr

/-- Resolution step of `queryActNumber` (create.js lines 325-383) for a
request whose recorded key is `myKey`, given the value of
`lastActQueryKey` at resolution time.  On a 2xx response the stale-guard
`if (lastActQueryKey !== queryKey) return;` runs before any form write; on
the non-2xx and thrown paths `fillFromOrderForActNumber` runs with no
guard. -/
def actResolve (lastKey : Option String) (myKey : String) (resp : ActResp)
    (cityOptions : List String) (windowPrefill : Option Prefill)
    (f : FormState) : FormState :=
  match resp with
  | .okFound p =>
      if lastKey = some myKey then applyPrefill cityOptions f p else f
  | .okNotFound =>
      if lastKey = some myKey then
        fillFromOrderForActNumber cityOptions windowPrefill f
      else f
  | .status404 => fillFromOrderForActNumber cityOptions windowPrefill f
  | .otherError => fillFromOrderForActNumber cityOptions windowPrefill f
  | .netThrow => fillFromOrderForActNumber cityOptions windowPrefill f

/-- C9 counterexample: the stale-guard compares keys, not request
identity.  Two queries for the same `seriesId:actNumber` key — the second
started before the first resolves, so `lastActQueryKey` is `1:5` set by
the second — let the first query's successful response pass the guard and
overwrite the form (here `client_full_name` changes), falsifying the
claimed `never overwrites`. -/
theorem claim9_same_key_race_cex :
    actStart "1" "5" = ActStartResult.started "1:5" ∧
    actResolve (some "1:5") "1:5"
        (ActResp.okFound ⟨some "X", none, none, none, none, none⟩) []
        none ⟨"", "", "", "", "", ""⟩
      ≠ ⟨"", "", "", "", "", ""⟩ := by
  refine ⟨by decide, by decide⟩

/-- C9 (amended): `queryActNumber` records `seriesId:num` in
`lastActQueryKey` before issuing its GET, and a successful (2xx) response
writes the form only when `lastActQueryKey` still equals that key; hence
when the later query recorded a *different* key, the earlier query's
successful response never changes the form.  When the later query records
the same key, the earlier response still applies (see the
counterexample). -/
theorem claim9_act_query_guard (k1 k2 : String) (p : Prefill)
    (cityOptions : List String) (windowPrefill : Option Prefill)
    (f : FormState) (s v key : String) (hk : k1 ≠ k2) :
    actResolve (some k2) k1 (ActResp.okFound p) cityOptions windowPrefill f
      = f ∧
    actResolve (some k2) k1 ActResp.okNotFound cityOptions windowPrefill f
      = f ∧
    (actStart s v = ActStartResult.started key →
      key = s ++ ":" ++ Nat.repr (digitsToNat (actNumDigits v))) := by
  have hne : ¬(some k2 = some k1) := by
    intro hc
    exact hk (Option.some.inj hc).symm
  refine ⟨?_, ?_, ?_⟩
  · show (if some k2 = some k1 then _ else f) = f
    rw [if_neg hne]
  · show (if some k2 = some k1 then _ else f) = f
    rw [if_neg hne]
  · intro h
    rw [actStart] at h
    by_cases h1 : s = ""
    · rw [if_pos h1] at h; exact absurd h (by simp)
    · rw [if_neg h1] at h
      by_cases h2 : actNumDigits v = ""
      · simp only [h2, if_pos] at h
        exact absurd h (by simp)
      · simp only [if_neg h2] at h
        by_cases h3 : digitsToNat (actNumDigits v) < 1
        · rw [if_pos h3] at h; exact absurd h (by simp)
        · rw [if_neg h3] at h
          by_cases h4 : digitsToNat (actNumDigits v) > INT_MAX
          · rw [if_pos h4] at h; exact absurd h (by simp)
          · rw [if_neg h4] at h
            exact (ActStartResult.started.inj h).symm

/-- Witness for C9 with the distinct keys `1:5` and `1:6`. -/
theorem claim9_act_query_guard_witness :
    ("1:5" : String) ≠ "1:6" ∧
    (actResolve (some "1:6") "1:5"
        (ActResp.okFound ⟨some "X", none, none, none, none, none⟩) [] none
        ⟨"", "", "", "", "", ""⟩
      = ⟨"", "", "", "", "", ""⟩ ∧
    actResolve (some "1:6") "1:5" ActResp.okNotFound [] none
        ⟨"", "", "", "", "", ""⟩
      = ⟨"", "", "", "", "", ""⟩ ∧
    (actStart "1" "005" = ActStartResult.started "1:5" →
      "1:5" = "1" ++ ":" ++ Nat.repr (digitsToNat (actNumDigits "005")))) :=
  ⟨by decide, claim9_act_query_guard "1:5" "1:6"
    ⟨some "X", none, none, none, none, none⟩ [] none
    ⟨"", "", "", "", "", ""⟩ "1" "005" "1:5" (by decide)⟩

/-- JSON value in the order-create POST payload: booleans produced by the
True/False conversion, strings, or the deleted-image id array. -/
inductive JV where
  | b (x : Bool)
  | s (x : String)
  | arr (xs : List Nat)
deriving DecidableEq, Repr

/-- Conversion applied to every FormData entry when building the payload
object (create.js lines 538-542): the literal strings True/False become
booleans, everything else stays a string. -/
def convVal (v : String) : JV :=
  if v = "True" then JV.b true
  else if v = "False" then JV.b false
  else JV.s v

/-- JS `||` on an optional string configuration value with a default. -/
def jsOrDefault (v : Option String) (d : String) : String :=
  match v with
  | some s => if s = "" then d else s
  | none => d

/-- Payload object built by the submit handler (create.js lines 534-545):
the form entries with `act_number` overwritten by the normalized number
(`tmp.set`), converted entry-by-entry into a JS object, then the
`company_tz` and `deleted_images_id` properties. -/
def mkSubmitPayload (formEntries : List (String × String))
    (actValue : String) (companyTz : Option String)
    (deletedImages : List Nat) : List (String × JV) :=
  let actNum := digitsToNat (actNumDigits actValue)
  let entries := searchParamsSet formEntries "act_number" (Nat.repr actNum)
  let obj := entries.foldl
      (fun acc p => assocSet acc p.1 (convVal p.2)) []
  let obj := assocSet obj "company_tz"
      (JV.s (jsOrDefault companyTz "Europe/Moscow"))
  assocSet obj "deleted_images_id" (JV.arr deletedImages)

/-- Outcome of one run of the order-create submit handler: a blocking
alert, the browser-native `form.reportValidity()` popup, or the POST with
its JSON payload. -/
inductive SubmitOutcome where
  | alerted (msg : String)
  | reportValidity
  | posted (payload : List (String × JV))
deriving DecidableEq, Repr

/-- Whether the outcome is a `window.alert`. -/
def SubmitOutcome.isAlerted : SubmitOutcome → Bool
  | .alerted _ => true
  | _ => false

/-- Embedding of the order-create form submit handler (create.js lines
494-643) up to the POST.  In code order: the phone must be either almost
empty (raw length at most 2) or mask-complete; the verification date, when
set, must not exceed today (JS string comparison on ISO dates);
`form.checkValidity()` must pass; the act-number digits stripped of
leading zeros must be non-empty, parse to at least 1 and not exceed
INT_MAX; only then is the POST issued with the payload of
`mkSubmitPayload`. -/
def submitOrderForm (phoneRawLen : Nat) (phoneComplete : Bool)
    (verificationDate today : String) (formValid : Bool)
    (actValue : String) (formEntries : List (String × String))
    (companyTz : Option String) (deletedImages : List Nat) :
    SubmitOutcome :=
  if ¬(phoneRawLen ≤ 2 ∨ phoneComplete = true) then
    SubmitOutcome.alerted
      "Введите телефон полностью (+7 (xxx) xxx-xx-xx) или оставьте +7"
  else if verificationDate ≠ "" ∧ today < verificationDate then
    SubmitOutcome.alerted
      "Дата поверки не может быть позже сегодняшнего дня."
  else if formValid = false then SubmitOutcome.reportValidity
  else if actNumDigits actValue = "" then
    SubmitOutcome.alerted "Введите корректный номер бланка (> 0)."
  else if digitsToNat (actNumDigits actValue) < 1 then
    SubmitOutcome.alerted "Введите корректный номер бланка (> 0)."
  else if digitsToNat (actNumDigits actValue) > INT_MAX then
    SubmitOutcome.alerted
      "Номер бланка превышает допустимый максимум (2147483647)."
  else
    SubmitOutcome.posted
      (mkSubmitPayload formEntries actValue companyTz deletedImages)

/-- Invalid act-number condition of the claim: digits with leading zeros
stripped are empty, parse below 1, or exceed INT_MAX. -/
def actBad (actValue : String) : Prop :=
  actNumDigits actValue = "" ∨
  digitsToNat (actNumDigits actValue) < 1 ∨
  digitsToNat (actNumDigits actValue) > INT_MAX

instance (actValue : String) : Decidable (actBad actValue) := by
  unfold actBad
  infer_instance

theorem assocGet_map_replace {α : Type} (o : List (String × α))
    (k : String) (v : α) (h : o.any (fun p => p.1 = k) = true) :
    (o.map (fun p => if p.1 = k then (k, v) else p)).find?
        (fun p => p.1 = k) = some (k, v) := by
  induction o with
  | nil => simp at h
  | cons p ps ih =>
    by_cases hp : p.1 = k
    · simp [hp]
    · have h' : ps.any (fun p => p.1 = k) = true := by
        simpa [hp] using h
      simp [hp, ih h']

theorem assocGet_assocSet_self {α : Type} (o : List (String × α))
    (k : String) (v : α) : assocGet (assocSet o k v) k = some v := by
  rw [assocSet]
  by_cases h : o.any (fun p => p.1 = k) = true
  · rw [if_pos h, assocGet, assocGet_map_replace o k v h]
    rfl
  · rw [if_neg h, assocGet, List.find?_append]
    have hnone : o.find? (fun p => p.1 = k) = none := by
      rw [List.find?_eq_none]
      intro x hx
      simp only [List.any_eq_true, not_exists, not_and] at h
      push_neg at h
      simp [h x hx]
    rw [hnone]
    simp

theorem find?_map_agree {α : Type} (l : List α) (f : α → α)
    (pred : α → Bool)
    (hagree : ∀ x ∈ l, pred (f x) = pred x)
    (hfix : ∀ x ∈ l, pred x = true → f x = x) :
    (l.map f).find? pred = l.find? pred := by
  induction l with
  | nil => rfl
  | cons p ps ih =>
    rw [List.map_cons]
    by_cases hp : pred p = true
    · rw [List.find?_cons_of_pos _
          (by rw [hagree p (List.mem_cons_self p ps)]; exact hp),
        List.find?_cons_of_pos _ hp,
        hfix p (List.mem_cons_self p ps) hp]
    · have hp' : ¬pred (f p) = true := by
        rw [hagree p (List.mem_cons_self p ps)]; exact hp
      rw [List.find?_cons_of_neg _ hp', List.find?_cons_of_neg _ hp]
      exact ih (fun x hx => hagree x (List.mem_cons_of_mem p hx))
        (fun x hx => hfix x (List.mem_cons_of_mem p hx))

theorem assocGet_assocSet_other {α : Type} (o : List (String × α))
    (k : String) (v : α) (k' : String) (h : k' ≠ k) :
    assocGet (assocSet o k v) k' = assocGet o k' := by
  rw [assocSet]
  by_cases hc : o.any (fun p => p.1 = k) = true
  · rw [if_pos hc, assocGet, assocGet, find?_map_agree]
    · intro x _
      by_cases hx : x.1 = k
      · rw [if_pos hx]
        have h1 : decide (((k, v) : String × α).1 = k') = false := by
          simp only [decide_eq_false_iff_not]
          exact fun hk => h hk.symm
        have h2 : decide (x.1 = k') = false := by
          simp only [decide_eq_false_iff_not]
          rw [hx]
          exact fun hk => h hk.symm
        simp only [h1, h2]
      · rw [if_neg hx]
    · intro x _ hpred
      by_cases hx : x.1 = k
      · exfalso
        have hxk' : x.1 = k' := of_decide_eq_true hpred
        exact h (by rw [← hxk']; exact hx)
      · rw [if_neg hx]
  · rw [if_neg hc, assocGet, assocGet, List.find?_append]
    have hnone : ([(k, v)].find? (fun p => p.1 = k')) = none := by
      rw [List.find?_cons_of_neg _
          (by simp only [decide_eq_true_eq]; exact fun hk => h hk.symm),
        List.find?_nil]
    rw [hnone]
    simp

theorem assocGet_foldl_conv (es : List (String × String)) (k : String) :
    ∀ acc : List (String × JV),
      assocGet (es.foldl (fun acc p => assocSet acc p.1 (convVal p.2)) acc)
          k
        = match es.reverse.find? (fun p => p.1 = k) with
          | some q => some (convVal q.2)
          | none => assocGet acc k := by
  induction es with
  | nil => intro acc; simp
  | cons p es ih =>
    intro acc
    rw [List.foldl_cons, ih (assocSet acc p.1 (convVal p.2))]
    rw [List.reverse_cons, List.find?_append]
    cases hfind : es.reverse.find? (fun q => q.1 = k) with
    | some q => simp [Option.or]
    | none =>
      simp only [Option.or, Option.none_or]
      by_cases hp : p.1 = k
      · rw [List.find?_cons_of_pos _ (by simpa using hp)]
        subst hp
        simp [assocGet_assocSet_self]
      · rw [List.find?_cons_of_neg _ (by simpa using hp), List.find?_nil]
        simp [assocGet_assocSet_other _ _ _ _ (fun hx => hp hx.symm)]

theorem searchParamsSet_self_mem (es : List (String × String))
    (k v : String) : (k, v) ∈ searchParamsSet es k v := by
  induction es with
  | nil => simp [searchParamsSet]
  | cons p ps ih =>
    rw [searchParamsSet]
    by_cases hp : p.1 = k
    · rw [if_pos hp]; exact List.mem_cons_self _ _
    · rw [if_neg hp]; exact List.mem_cons_of_mem p ih

theorem searchParamsSet_key_unique (es : List (String × String))
    (k v : String) :
    ∀ q ∈ searchParamsSet es k v, q.1 = k → q = (k, v) := by
  induction es with
  | nil =>
    intro q hq _
    simpa [searchParamsSet] using hq
  | cons p ps ih =>
    intro q hq hqk
    rw [searchParamsSet] at hq
    by_cases hp : p.1 = k
    · rw [if_pos hp] at hq
      rcases List.mem_cons.mp hq with h1 | h2
      · exact h1
      · have := List.of_mem_filter h2
        simp only [decide_eq_true_eq] at this
        exact absurd hqk this
    · rw [if_neg hp] at hq
      rcases List.mem_cons.mp hq with h1 | h2
      · rw [h1] at hqk; exact absurd hqk hp
      · exact ih q h2 hqk

theorem reverse_find_searchParamsSet (es : List (String × String))
    (k v : String) :
    (searchParamsSet es k v).reverse.find? (fun p => p.1 = k)
      = some (k, v) := by
  have hmem : (k, v) ∈ (searchParamsSet es k v).reverse := by
    rw [List.mem_reverse]
    exact searchParamsSet_self_mem es k v
  have hsome : ((searchParamsSet es k v).reverse.find?
      (fun p => p.1 = k)).isSome := by
    rw [List.find?_isSome]
    exact ⟨(k, v), hmem, by simp⟩
  obtain ⟨q, hq⟩ := Option.isSome_iff_exists.mp hsome
  have hqp : q.1 = k := by simpa using List.find?_some hq
  have hqm : q ∈ searchParamsSet es k v := by
    rw [← List.mem_reverse]
    exact List.mem_of_find?_eq_some hq
  rw [hq, searchParamsSet_key_unique es k v q hqm hqp]

theorem digitChar_isDigit (n : Nat) (h : n < 10) :
    (Nat.digitChar n).isDigit = true := by
  interval_cases n <;> decide

theorem toDigitsCore_all_digits (fuel : Nat) :
    ∀ (n : Nat) (ds : List Char), (∀ c ∈ ds, c.isDigit = true) →
      ∀ c ∈ Nat.toDigitsCore 10 fuel n ds, c.isDigit = true := by
  induction fuel with
  | zero =>
    intro n ds hds c hc
    exact hds c hc
  | succ fuel ih =>
    intro n ds hds c hc
    rw [Nat.toDigitsCore] at hc
    have hd : ∀ x ∈ Nat.digitChar (n % 10) :: ds, x.isDigit = true := by
      intro x hx
      rcases List.mem_cons.mp hx with h1 | h2
      · rw [h1]
        exact digitChar_isDigit _ (Nat.mod_lt _ (by decide))
      · exact hds x h2
    by_cases h : n / 10 = 0
    · rw [if_pos h] at hc
      exact hd c hc
    · rw [if_neg h] at hc
      exact ih (n / 10) _ hd c hc

theorem repr_all_digits (n : Nat) :
    ∀ c ∈ (Nat.repr n).toList, c.isDigit = true := by
  intro c hc
  have : c ∈ Nat.toDigitsCore 10 (n + 1) n [] := by
    simpa [Nat.repr, Nat.toDigits, List.asString, String.toList] using hc
  exact toDigitsCore_all_digits (n + 1) n [] (by intro x hx; simp at hx)
    c this

theorem repr_ne_of_nondigit (n : Nat) (s : String) (c : Char)
    (hc : c ∈ s.toList) (hnd : c.isDigit = false) : Nat.repr n ≠ s := by
  intro h
  have : c.isDigit = true := repr_all_digits n c (by rw [h]; exact hc)
  rw [hnd] at this
  exact Bool.false_ne_true this

theorem convVal_repr (n : Nat) : convVal (Nat.repr n) = JV.s (Nat.repr n) := by
  rw [convVal,
    if_neg (repr_ne_of_nondigit n "True" 'T' (by decide) (by decide)),
    if_neg (repr_ne_of_nondigit n "False" 'F' (by decide) (by decide))]

/-- Every POST payload carries the normalized act number: the value stored
at `act_number` is the string of the parsed integer (it is neither the
literal True nor False, so the entry conversion keeps it a string). -/
theorem mkSubmitPayload_act_number (formEntries : List (String × String))
    (actValue : String) (companyTz : Option String)
    (deletedImages : List Nat) :
    assocGet (mkSubmitPayload formEntries actValue companyTz deletedImages)
        "act_number"
      = some (JV.s (Nat.repr (digitsToNat (actNumDigits actValue)))) := by
  rw [mkSubmitPayload]
  rw [assocGet_assocSet_other _ _ _ _ (by decide),
    assocGet_assocSet_other _ _ _ _ (by decide),
    assocGet_foldl_conv, reverse_find_searchParamsSet]
  simp [convVal_repr]

/-- C10: whenever the submit handler reaches the act-number validation
(the form passed `checkValidity`), an act field whose digits stripped of
leading zeros are empty, parse below 1 or exceed INT_MAX produces a
blocking alert and never a POST; and when every guard passes, the handler
issues the POST whose payload carries the normalized integer act number
under the `act_number` key. -/
theorem claim10_submit_act_validation (phoneRawLen : Nat)
    (phoneComplete : Bool) (vdate today : String) (formValid : Bool)
    (actValue : String) (formEntries : List (String × String))
    (companyTz : Option String) (deletedImages : List Nat)
    (hv : formValid = true) :
    (actBad actValue →
      (submitOrderForm phoneRawLen phoneComplete vdate today formValid
          actValue formEntries companyTz deletedImages).isAlerted
        = true) ∧
    ((phoneRawLen ≤ 2 ∨ phoneComplete = true) →
      ¬(vdate ≠ "" ∧ today < vdate) →
      ¬actBad actValue →
      submitOrderForm phoneRawLen phoneComplete vdate today formValid
          actValue formEntries companyTz deletedImages
        = SubmitOutcome.posted
            (mkSubmitPayload formEntries actValue companyTz deletedImages)
      ∧ assocGet (mkSubmitPayload formEntries actValue companyTz
            deletedImages) "act_number"
        = some (JV.s (Nat.repr (digitsToNat (actNumDigits actValue))))) := by
  have hvf : ¬(formValid = false) := by rw [hv]; simp
  constructor
  · intro hbad
    rw [submitOrderForm]
    by_cases h1 : ¬(phoneRawLen ≤ 2 ∨ phoneComplete = true)
    · rw [if_pos h1]; rfl
    · rw [if_neg h1]
      by_cases h2 : vdate ≠ "" ∧ today < vdate
      · rw [if_pos h2]; rfl
      · rw [if_neg h2, if_neg hvf]
        by_cases h3 : actNumDigits actValue = ""
        · rw [if_pos h3]; rfl
        · rw [if_neg h3]
          by_cases h4 : digitsToNat (actNumDigits actValue) < 1
          · rw [if_pos h4]; rfl
          · rw [if_neg h4]
            have h5 : digitsToNat (actNumDigits actValue) > INT_MAX := by
              rcases hbad with h | h | h
              · exact absurd h h3
              · exact absurd h h4
              · exact h
            rw [if_pos h5]; rfl
  · intro hp hd hok
    have h3 : ¬(actNumDigits actValue = "") := fun h => hok (Or.inl h)
    have h4 : ¬(digitsToNat (actNumDigits actValue) < 1) :=
      fun h => hok (Or.inr (Or.inl h))
    have h5 : ¬(digitsToNat (actNumDigits actValue) > INT_MAX) :=
      fun h => hok (Or.inr (Or.inr h))
    rw [submitOrderForm, if_neg (not_not_intro hp), if_neg hd, if_neg hvf,
      if_neg h3, if_neg h4, if_neg h5]
    exact ⟨rfl,
      mkSubmitPayload_act_number formEntries actValue companyTz
        deletedImages⟩

/-- Witness for C10: a valid submission with act field 0012 posts a
payload whose act_number is the string 12, while act field 000 (digits
strip to empty) only alerts. -/
theorem claim10_submit_act_validation_witness :
    (true = true ∧
      (actBad "0012" →
        (submitOrderForm 2 false "" "2026-10-11" true "0012"
            [("city_id", "3")] none []).isAlerted = true) ∧
      (((2 : Nat) ≤ 2 ∨ false = true) →
        ¬(("" : String) ≠ "" ∧ ("2026-10-11" : String) < "") →
        ¬actBad "0012" →
        submitOrderForm 2 false "" "2026-10-11" true "0012"
            [("city_id", "3")] none []
          = SubmitOutcome.posted
              (mkSubmitPayload [("city_id", "3")] "0012" none [])
        ∧ assocGet (mkSubmitPayload [("city_id", "3")] "0012" none [])
              "act_number"
          = some (JV.s (Nat.repr (digitsToNat (actNumDigits "0012")))))) ∧
    (actBad "000" →
      (submitOrderForm 2 false "" "2026-10-11" true "000"
          [("city_id", "3")] none []).isAlerted = true) := by
  have h1 := claim10_submit_act_validation 2 false "" "2026-10-11" true
    "0012" [("city_id", "3")] none [] (by decide)
  have h2 := claim10_submit_act_validation 2 false "" "2026-10-11" true
    "000" [("city_id", "3")] none [] (by decide)
  exact ⟨⟨rfl, h1.1, h1.2⟩, h2.1⟩
